import Mathlib

/-!
Shallow embedding of `tests/generate_test_report.py` (class `TestReportGenerator`).

The generator collects test results from four artifact families (cargo test
JSON event logs, Criterion benchmark estimate files, a tarpaulin coverage
report, valgrind memory XML reports) into mutable per-category lists, then
renders three artifacts (HTML, JSON, Markdown).

Modelling conventions:
- Python dicts built from JSON are modelled as structures whose fields are
  `Option`-valued where the source uses `dict.get` with a default.
- Python floats are modelled as rationals (`ℚ`); the numeric claims are about
  guards, counts and constancy, not about rounding.
- A caught-and-logged exception is modelled by the collector skipping the
  offending item; an uncaught exception is modelled with `Except.error`
  propagating out of the collector (the Python exception aborts the run).
- The three renderers are modelled as functions from the collected state to a
  structure holding exactly the data values the rendered document displays
  (markup strings carry no further information).
-/

/-- Case-insensitive preparation of a test name: Python `str.lower()`,
modelled characterwise. -/
def lowerChars (s : String) : List Char := s.data.map Char.toLower

/-- Python `sub in hay` prefix step: does `sub` start the list `hay`. -/
def isPrefixOfCl : List Char → List Char → Bool
  | [], _ => true
  | _ :: _, [] => false
  | a :: as, b :: bs => a == b && isPrefixOfCl as bs

/-- Python `sub in hay` substring test over char lists. -/
def isInfixOfCl (sub : List Char) : List Char → Bool
  | [] => sub.isEmpty
  | c :: cs => isPrefixOfCl sub (c :: cs) || isInfixOfCl sub cs

/-- Python `sub in hay.lower()`: case-insensitive substring containment used
by `_process_test_event` to categorize a test name. -/
def containsSub (hay sub : String) : Bool := isInfixOfCl sub.data (lowerChars hay)

/-- One parsed line of a cargo test JSON event log (`json.loads(line)` result).
Fields the source reads via `event.get(...)`; each may be absent. -/
structure RawEvent where
  type : Option String
  name : Option String
  event : Option String
  exec_time : Option ℚ
  stdout : Option String
deriving DecidableEq

/-- The dict built by `_process_test_event` from a raw event
(`name`/`event`/`duration`/`stdout` with the source's `.get` defaults). -/
structure TestResult where
  name : String
  event : String
  duration : ℚ
  stdout : String
deriving DecidableEq

/-- The dict appended by `_collect_benchmark_results` for one Criterion
benchmark directory. -/
structure BenchResult where
  name : String
  mean : ℚ
  median : ℚ
  std_dev : ℚ
deriving DecidableEq

/-- `self.performance_tests` is a heterogeneous Python list: it receives
test-event dicts (names containing "performance") from `_process_test_event`
and benchmark dicts from `_collect_benchmark_results`. -/
inductive PerfEntry where
  | test (t : TestResult)
  | bench (b : BenchResult)
deriving DecidableEq

/-- The dict appended by `_collect_memory_test_results` for one `<error>`
element of a valgrind XML report. -/
structure MemoryIssue where
  kind : String
  what : String
deriving DecidableEq

/-- `self.coverage_data` as set by `_collect_coverage_results`. -/
structure CoverageData where
  line_coverage : ℚ
  branch_coverage : ℚ
  function_coverage : ℚ
deriving DecidableEq

/-- The mutable per-category collections of `TestReportGenerator`
(`self.unit_tests`, ..., plus `self.coverage_data`). `accessibility_tests`
is initialised by the source and never touched; it is kept for fidelity. -/
structure GenState where
  unit_tests : List TestResult
  integration_tests : List TestResult
  performance_tests : List PerfEntry
  accessibility_tests : List TestResult
  platform_tests : List TestResult
  memory_tests : List MemoryIssue
  coverage_data : CoverageData
deriving DecidableEq

/-- The collections as `__init__` leaves them. (`coverage_data` does not yet
exist in the Python object at that point; it is first assigned by
`_collect_coverage_results`, which always overwrites it with zeroes, so the
initial value chosen here is never observable.) -/
def initState : GenState :=
  { unit_tests := []
    integration_tests := []
    performance_tests := []
    accessibility_tests := []
    platform_tests := []
    memory_tests := []
    coverage_data := { line_coverage := 0, branch_coverage := 0, function_coverage := 0 } }

/-- The dict construction at the top of `_process_test_event`:
`event.get("name", "Unknown")`, `event.get("event", "")`,
`event.get("exec_time", 0)`, `event.get("stdout", "")`. -/
def mkTestResult (e : RawEvent) : TestResult :=
  { name := e.name.getD "Unknown"
    event := e.event.getD ""
    duration := e.exec_time.getD 0
    stdout := e.stdout.getD "" }

/-- `_process_test_event`: build the result dict, then the if/elif chain on
`test_result["name"].lower()` appends it to exactly one collection. -/
def processTestEvent (e : RawEvent) (s : GenState) : GenState :=
  let t := mkTestResult e
  if containsSub t.name "unit" then
    { s with unit_tests := s.unit_tests ++ [t] }
  else if containsSub t.name "integration" then
    { s with integration_tests := s.integration_tests ++ [t] }
  else if containsSub t.name "performance" then
    { s with performance_tests := s.performance_tests ++ [PerfEntry.test t] }
  else
    { s with unit_tests := s.unit_tests ++ [t] }

/-- One line of an event-log file: `none` models a line on which
`json.loads` raises `JSONDecodeError` (the inner `except` does `continue`). -/
abbrev EventLine := Option RawEvent

/-- One event-log file: `none` models a file whose processing raises
(e.g. `open` fails); the outer `except Exception` logs and moves on. -/
abbrev EventFile := Option (List EventLine)

/-- Inner line loop of `_collect_cargo_test_results`: undecodable lines are
skipped, events whose `type` is not `"test"` are ignored. -/
def processLines : List EventLine → GenState → GenState
  | [], s => s
  | none :: ls, s => processLines ls s
  | some e :: ls, s =>
      processLines ls (if e.type = some "test" then processTestEvent e s else s)

/-- `_collect_cargo_test_results`: per-file loop with a catch-all `except`
per file, so a bad file is logged and skipped. -/
def collectCargoTestResults : List EventFile → GenState → GenState
  | [], s => s
  | none :: fs, s => collectCargoTestResults fs s
  | some lines :: fs, s => collectCargoTestResults fs (processLines lines s)

instance exceptDecEq {ε α : Type} [DecidableEq ε] [DecidableEq α] :
    DecidableEq (Except ε α) := fun x y =>
  match x, y with
  | Except.error a, Except.error b =>
      if h : a = b then isTrue (by rw [h]) else isFalse (by simp [h])
  | Except.error _, Except.ok _ => isFalse (by simp)
  | Except.ok _, Except.error _ => isFalse (by simp)
  | Except.ok a, Except.ok b =>
      if h : a = b then isTrue (by rw [h]) else isFalse (by simp [h])

/-- Parsed `base/estimates.json` content: the source reads
`data.get("mean", {}).get("point_estimate", 0)` and likewise for median and
std_dev, so each estimate is optional and defaults to 0. -/
structure BenchEstimates where
  mean : Option ℚ
  median : Option ℚ
  std_dev : Option ℚ
deriving DecidableEq

/-- One subdirectory of `target/criterion`. `estimates = none`: the
`base/estimates.json` file does not exist (the `if estimates_file.exists()`
guard skips the directory). `some (.error e)`: the file exists but
`json.load` raises — `_collect_benchmark_results` has no `try`, so the
exception propagates. `some (.ok d)`: the file parses to `d`. -/
structure BenchDir where
  name : String
  estimates : Option (Except String BenchEstimates)
deriving DecidableEq

/-- `_collect_benchmark_results`: appends one benchmark dict per directory
with a readable estimates file; an unparsable estimates file raises out of
the whole collection (no exception handler in the source). -/
def collectBenchmarkResults : List BenchDir → GenState → Except String GenState
  | [], s => Except.ok s
  | d :: ds, s =>
      match d.estimates with
      | none => collectBenchmarkResults ds s
      | some (Except.error e) => Except.error e
      | some (Except.ok data) =>
          collectBenchmarkResults ds
            { s with performance_tests := s.performance_tests ++
                [PerfEntry.bench
                  { name := d.name
                    mean := data.mean.getD 0
                    median := data.median.getD 0
                    std_dev := data.std_dev.getD 0 }] }

/-- Parsed tarpaulin JSON content. The source performs `json.load(f)` and
then extracts nothing from the result, so the fields below are never read. -/
structure TarpaulinJson where
  line_coverage : Option ℚ
  branch_coverage : Option ℚ
  function_coverage : Option ℚ
deriving DecidableEq

/-- The tarpaulin coverage artifact: `none` — no `tarpaulin-report.json`
file; `some (.error e)` — the file exists but `json.load` raises (no `try`
in `_collect_coverage_results`, so it propagates); `some (.ok d)` — the file
parses to `d`, which the source then ignores. -/
abbrev TarpaulinFile := Option (Except String TarpaulinJson)

/-- `_collect_coverage_results`: unconditionally sets all three coverage
percentages to 0.0, then opens and parses the tarpaulin file if present but
assigns nothing from it. -/
def collectCoverageResults (tarp : TarpaulinFile) (s : GenState) :
    Except String GenState :=
  let s' := { s with coverage_data :=
    { line_coverage := 0, branch_coverage := 0, function_coverage := 0 } }
  match tarp with
  | none => Except.ok s'
  | some (Except.error e) => Except.error e
  | some (Except.ok _) => Except.ok s'

/-- One `<error>` element of a valgrind XML report: text of the `<kind>`
child and of the `<what>` child, each possibly absent. -/
structure ErrorElem where
  kind : Option String
  what : Option String
deriving DecidableEq

/-- One valgrind XML file: `.error e` models `ET.parse` raising (caught per
file by the source and logged); `.ok errs` is the list of `<error>`
elements found by `root.findall(".//error")`. -/
abbrev MemFile := Except String (List ErrorElem)

/-- The dict appended per `<error>` element: `<kind>` text defaulting to
`"Unknown"`, `<what>` text defaulting to `"Unknown error"`. -/
def mkIssue (e : ErrorElem) : MemoryIssue :=
  { kind := e.kind.getD "Unknown", what := e.what.getD "Unknown error" }

/-- Inner loop of `_collect_memory_test_results` over the error elements of
one parsed report. -/
def appendIssues : List ErrorElem → GenState → GenState
  | [], s => s
  | e :: es, s => appendIssues es { s with memory_tests := s.memory_tests ++ [mkIssue e] }

/-- `_collect_memory_test_results`: per-file loop with a `try` per file, so
an unparsable report is logged and skipped. -/
def collectMemoryTestResults : List MemFile → GenState → GenState
  | [], s => s
  | Except.error _ :: fs, s => collectMemoryTestResults fs s
  | Except.ok errs :: fs, s => collectMemoryTestResults fs (appendIssues errs s)

/-- The filesystem contents `collect_test_results` consumes: the matched
event-log files, the Criterion benchmark subdirectories, the tarpaulin
report, and the matched valgrind XML files. -/
structure Input where
  event_files : List EventFile
  bench_dirs : List BenchDir
  tarpaulin : TarpaulinFile
  memory_files : List MemFile
deriving DecidableEq

/-- `collect_test_results`: runs the four collectors in source order. An
exception escaping the benchmark or coverage collector aborts the whole
collection (and with it the run), which `Except.error` models. -/
def collectTestResults (inp : Input) : Except String GenState :=
  let s1 := collectCargoTestResults inp.event_files initState
  match collectBenchmarkResults inp.bench_dirs s1 with
  | Except.error e => Except.error e
  | Except.ok s2 =>
      match collectCoverageResults inp.tarpaulin s2 with
      | Except.error e => Except.error e
      | Except.ok s3 => Except.ok (collectMemoryTestResults inp.memory_files s3)

/-- The numeric values displayed by `_generate_summary_section` of the HTML
report (total/passed/failed cards, pass-rate bar, line-coverage card,
benchmark count, memory-issue count). -/
structure SummaryHtml where
  total_tests : ℕ
  passed_tests : ℕ
  failed_tests : ℕ
  pass_rate : ℚ
  line_coverage : ℚ
  benchmarks_run : ℕ
  memory_issues : ℕ
deriving DecidableEq

/-- `_generate_summary_section`: note the total includes the platform list,
and passed/failed count `"ok"`/`"failed"` events over unit ∪ integration. -/
def generateSummarySection (s : GenState) : SummaryHtml :=
  let total_tests :=
    s.unit_tests.length + s.integration_tests.length + s.platform_tests.length
  let passed_tests :=
    (s.unit_tests ++ s.integration_tests).countP (fun t => t.event == "ok")
  let failed_tests :=
    (s.unit_tests ++ s.integration_tests).countP (fun t => t.event == "failed")
  let pass_rate : ℚ :=
    if total_tests > 0 then (passed_tests : ℚ) / (total_tests : ℚ) * 100 else 0
  { total_tests := total_tests
    passed_tests := passed_tests
    failed_tests := failed_tests
    pass_rate := pass_rate
    line_coverage := s.coverage_data.line_coverage
    benchmarks_run := s.performance_tests.length
    memory_issues := s.memory_tests.length }

/-- The content of one category tab produced by `_generate_test_table`:
either the explicit "No tests found in this category." empty state, or a
table with one row per test. -/
inductive TestTable where
  | noTests
  | table (rows : List TestResult)
deriving DecidableEq

/-- `_generate_test_table`. -/
def generateTestTable (tests : List TestResult) : TestTable :=
  if tests.isEmpty then TestTable.noTests else TestTable.table tests

/-- The three coverage percentages displayed by `_generate_coverage_section`
(each read from `self.coverage_data` with a `.get(..., 0)` default that
never fires, since the collector always sets all three keys). -/
def generateCoverageSection (s : GenState) : CoverageData := s.coverage_data

/-- The `"summary"` object of the JSON report. Note its total counts only
unit and integration tests (no platform term, unlike the HTML summary). -/
structure JsonSummary where
  total_tests : ℕ
  passed : ℕ
  failed : ℕ
  coverage : CoverageData
deriving DecidableEq

/-- The full `report_data` dict of `generate_json_report` (minus the
timestamp, which no claim concerns). -/
structure JsonReport where
  summary : JsonSummary
  tests_unit : List TestResult
  tests_integration : List TestResult
  tests_performance : List PerfEntry
  tests_platform : List TestResult
  memory : List MemoryIssue
deriving DecidableEq

/-- `generate_json_report`: the entire collections are embedded, untruncated. -/
def generateJsonReport (s : GenState) : JsonReport :=
  { summary :=
    { total_tests := s.unit_tests.length + s.integration_tests.length
      passed :=
        (s.unit_tests ++ s.integration_tests).countP (fun t => t.event == "ok")
      failed :=
        (s.unit_tests ++ s.integration_tests).countP (fun t => t.event == "failed")
      coverage := s.coverage_data }
    tests_unit := s.unit_tests
    tests_integration := s.integration_tests
    tests_performance := s.performance_tests
    tests_platform := s.platform_tests
    memory := s.memory_tests }

/-- The data content of the Markdown document built by
`generate_markdown_report`: the summary numbers, the per-section row lists
(each a Python `[:10]` slice), and for each test section the optional
"*... and K more tests*" line, holding the displayed count K when the
source appends that line. -/
structure MarkdownReport where
  total_tests : ℕ
  passed_tests : ℕ
  failed_tests : ℕ
  pass_rate : ℚ
  line_coverage : ℚ
  benchmark_count : ℕ
  memory_count : ℕ
  unit_count : ℕ
  integration_count : ℕ
  unit_rows : List TestResult
  unit_more : Option ℕ
  integration_rows : List TestResult
  integration_more : Option ℕ
  perf_rows : List PerfEntry
  memory_lines : List MemoryIssue
deriving DecidableEq

/-- `generate_markdown_report`. The unit section appends
`*... and {len - 10} more tests*` when more than 10 unit tests exist; the
integration section's loop is followed directly by the performance header,
so `integration_more` is always `none`; the performance section is likewise
sliced `[:10]` with no marker; the memory section lists every issue. -/
def generateMarkdownReport (s : GenState) : MarkdownReport :=
  let total_tests := s.unit_tests.length + s.integration_tests.length
  let passed_tests :=
    (s.unit_tests ++ s.integration_tests).countP (fun t => t.event == "ok")
  let failed_tests :=
    (s.unit_tests ++ s.integration_tests).countP (fun t => t.event == "failed")
  let pass_rate : ℚ :=
    if total_tests > 0 then (passed_tests : ℚ) / (total_tests : ℚ) * 100 else 0
  { total_tests := total_tests
    passed_tests := passed_tests
    failed_tests := failed_tests
    pass_rate := pass_rate
    line_coverage := s.coverage_data.line_coverage
    benchmark_count := s.performance_tests.length
    memory_count := s.memory_tests.length
    unit_count := s.unit_tests.length
    integration_count := s.integration_tests.length
    unit_rows := s.unit_tests.take 10
    unit_more :=
      if s.unit_tests.length > 10 then some (s.unit_tests.length - 10) else none
    integration_rows := s.integration_tests.take 10
    integration_more := none
    perf_rows := s.performance_tests.take 10
    memory_lines := s.memory_tests }

/-- One of the three output artifacts written by `main`. -/
inductive Fmt where
  | html
  | json
  | md
deriving DecidableEq

/-- Whether each of the three artifact writes would succeed
(filesystem permissions / disk state at the three destination paths). -/
structure WriteEnv where
  html_ok : Bool
  json_ok : Bool
  md_ok : Bool
deriving DecidableEq

/-- One `generate_*_report` call from `main`'s point of view: the write is
attempted (recorded in `acc`); `open`/`write` raising is modelled by
`Except.error`, which aborts `main` since `main` has no exception handler
around the three calls. -/
def writeArtifact (f : Fmt) (ok : Bool) (acc : List Fmt) :
    Except (List Fmt × String) (List Fmt) :=
  if ok then Except.ok (acc ++ [f]) else Except.error (acc ++ [f], "write failure")

/-- The render/write phase of `main`: the three `generate_*_report` calls in
source order, with no exception handling between them. The result carries
the list of attempted writes; an error means the process aborts with a
traceback (process-level failure). -/
def generateAllReports (env : WriteEnv) : Except (List Fmt × String) (List Fmt) :=
  match writeArtifact Fmt.html env.html_ok [] with
  | Except.error e => Except.error e
  | Except.ok a1 =>
      match writeArtifact Fmt.json env.json_ok a1 with
      | Except.error e => Except.error e
      | Except.ok a2 => writeArtifact Fmt.md env.md_ok a2

/-- The artifact writes `main` attempts under a given filesystem state. -/
def attemptedWrites (env : WriteEnv) : List Fmt :=
  match generateAllReports env with
  | Except.ok a => a
  | Except.error (a, _) => a

/-- The four categories of §3 of the specification. -/
inductive Category where
  | unit
  | integration
  | performance
  | platform
deriving DecidableEq

/-- The categorization rule as the specification words it (§4.3): in order,
case-insensitive substring match on the test name; contains "unit" → Unit;
contains "integration" → Integration; contains "performance" → Performance;
otherwise → Unit. Stated as a plain function of the name string alone, which
is what the spec's purity/determinism requirement demands. -/
def categorizeSpec (name : String) : Category :=
  if containsSub name "unit" then Category.unit
  else if containsSub name "integration" then Category.integration
  else if containsSub name "performance" then Category.performance
  else Category.unit

/-- Appending one normalized record to the collection a category names
(a test-event dict landing in the performance list enters the heterogeneous
list as a test entry). -/
def addToCategory (c : Category) (t : TestResult) (s : GenState) : GenState :=
  match c with
  | Category.unit => { s with unit_tests := s.unit_tests ++ [t] }
  | Category.integration => { s with integration_tests := s.integration_tests ++ [t] }
  | Category.performance =>
      { s with performance_tests := s.performance_tests ++ [PerfEntry.test t] }
  | Category.platform => { s with platform_tests := s.platform_tests ++ [t] }

/-- The pass-rate contract of §4.4/§8 of the specification: in [0, 100],
equal to `passed / total * 100` when `total > 0`, and 0 when `total = 0`. -/
def passRateOk (pr : ℚ) (passed total : ℕ) : Prop :=
  0 ≤ pr ∧ pr ≤ 100 ∧ (total = 0 → pr = 0) ∧
    (0 < total → pr = (passed : ℚ) / (total : ℚ) * 100)

/-- A benchmark directory whose estimates file (if any) parses: the reads
`_collect_benchmark_results` performs on it do not raise. -/
def benchFileOk (d : BenchDir) : Bool :=
  match d.estimates with
  | some (Except.error _) => false
  | _ => true

/-- A tarpaulin artifact state under which `_collect_coverage_results` does
not raise: the file is absent or parses. -/
def tarpOk (t : TarpaulinFile) : Bool :=
  match t with
  | some (Except.error _) => false
  | _ => true

/-- The event-log inputs with every malformed file and every undecodable
line removed. -/
def cleanEventFiles (fs : List EventFile) : List EventFile :=
  fs.filterMap (fun f =>
    match f with
    | none => none
    | some lines => some (some (lines.filter (fun l => l.isSome))))

/-- The valgrind inputs with every unparsable report removed. -/
def cleanMemoryFiles (fs : List MemFile) : List MemFile :=
  fs.filter (fun f =>
    match f with
    | Except.ok _ => true
    | Except.error _ => false)

/-- Specification-side description of what one valgrind report contributes:
exactly one record per `<error>` element, `kind` defaulting to "Unknown"
and the description field defaulting to "Unknown error"; an unparsable
report contributes nothing. -/
def specIssuesOfFile : MemFile → List MemoryIssue
  | Except.error _ => []
  | Except.ok errs =>
      errs.map (fun e =>
        { kind := e.kind.getD "Unknown", what := e.what.getD "Unknown error" })

/-- Whether `collect_test_results` runs to completion (no uncaught
exception) on the given inputs. -/
def collectSucceeded (inp : Input) : Bool :=
  match collectTestResults inp with
  | Except.ok _ => true
  | Except.error _ => false

/-- Whether `main`'s render/write phase runs to completion, i.e. the
process-level signal is success. -/
def reportsSucceeded (env : WriteEnv) : Bool :=
  match generateAllReports env with
  | Except.ok _ => true
  | Except.error _ => false

/-- A collected state whose platform list is nonempty (the shape the JSON
report's `tests.platform` field and the HTML platform tab are declared to
hold). -/
def sPlatformOne : GenState :=
  { initState with platform_tests := [{ name := "plat_probe", event := "ok", duration := 0, stdout := "" }] }

/-- A collected state with two unit tests, one passed and one failed. -/
def sTwoUnit : GenState :=
  { initState with unit_tests :=
      [{ name := "unit_add_clip", event := "ok", duration := 1, stdout := "" },
       { name := "unit_remove_clip", event := "failed", duration := 2, stdout := "" }] }

/-- A collected state with eleven integration tests (more than the
Markdown slice bound of 10). -/
def sElevenIntegration : GenState :=
  { initState with integration_tests :=
      List.replicate 11 { name := "integration_case", event := "ok", duration := 0, stdout := "" } }

/-- Inputs holding one malformed benchmark estimates file together with a
well-formed valgrind report. -/
def inpBadBench : Input :=
  { event_files := []
    bench_dirs := [{ name := "bench_decode", estimates := some (Except.error "bad json") }]
    tarpaulin := none
    memory_files := [Except.ok [{ kind := some "Leak_DefinitelyLost", what := some "8 bytes lost" }]] }

/-- Inputs mixing malformed items in the fail-soft categories (one unreadable
event file, one undecodable event line, one unparsable valgrind report) with
well-formed benchmark and coverage artifacts. -/
def inpMixed : Input :=
  { event_files :=
      [none,
       some [none,
             some { type := some "test", name := some "unit_render", event := some "ok",
                    exec_time := some 1, stdout := none }]]
    bench_dirs := [{ name := "bench_decode",
                     estimates := some (Except.ok { mean := some 120.5, median := some 119, std_dev := some 3 }) }]
    tarpaulin := some (Except.ok { line_coverage := some 87, branch_coverage := some 62, function_coverage := some 91 })
    memory_files := [Except.error "truncated xml", Except.ok []] }

/-- A valgrind report list with a single `<error>` element that has a
`<kind>` child but no description child. -/
def memNoWhat : List MemFile :=
  [Except.ok [{ kind := some "Leak_DefinitelyLost", what := none }]]

/-- Inputs with a present, well-formed tarpaulin report carrying nonzero
percentages, and nothing else. -/
def inpCoverageOnly : Input :=
  { event_files := []
    bench_dirs := []
    tarpaulin := some (Except.ok { line_coverage := some 87, branch_coverage := some 62, function_coverage := some 91 })
    memory_files := [] }

/-- Inputs with one passing unit-test event and nothing else. -/
def inpOneUnit : Input :=
  { event_files :=
      [some [some { type := some "test", name := some "unit_add_clip", event := some "ok",
                    exec_time := some 1, stdout := none }]]
    bench_dirs := []
    tarpaulin := none
    memory_files := [] }

/-- The collected state `inpOneUnit` produces. -/
def sOneUnit : GenState :=
  { initState with unit_tests := [{ name := "unit_add_clip", event := "ok", duration := 1, stdout := "" }] }

theorem countP_disjoint_le_length {α : Type} (p q : α → Bool) (l : List α)
    (h : ∀ a, p a = true → q a = false) :
    l.countP p + l.countP q ≤ l.length := by
  have hmono : l.countP q ≤ l.countP (fun a => decide ¬p a = true) := by
    apply List.countP_mono_left
    intro a _ hq
    have hpa : p a = false := by
      cases hp : p a
      · rfl
      · rw [h a hp] at hq
        exact Bool.noConfusion hq
    simp [hpa]
  have hlen := List.length_eq_countP_add_countP p l
  omega

theorem passRate_formula_ok (passed total : ℕ) (hle : passed ≤ total) :
    passRateOk (if total > 0 then (passed : ℚ) / (total : ℚ) * 100 else 0) passed total := by
  by_cases h : 0 < total
  · have htpos : (0 : ℚ) < (total : ℚ) := by exact_mod_cast h
    have hcast : (passed : ℚ) ≤ (total : ℚ) := by exact_mod_cast hle
    have hdiv1 : (passed : ℚ) / (total : ℚ) ≤ 1 := div_le_one_of_le₀ hcast (le_of_lt htpos)
    have hdiv0 : (0 : ℚ) ≤ (passed : ℚ) / (total : ℚ) :=
      div_nonneg (by positivity) (le_of_lt htpos)
    refine ⟨?_, ?_, ?_, ?_⟩
    · simp only [if_pos h]
      positivity
    · simp only [if_pos h]
      calc (passed : ℚ) / (total : ℚ) * 100 ≤ 1 * 100 :=
            mul_le_mul_of_nonneg_right hdiv1 (by norm_num)
        _ = 100 := one_mul 100
    · intro h0
      omega
    · intro _
      simp only [if_pos h]
  · have h0 : total = 0 := by omega
    refine ⟨?_, ?_, ?_, ?_⟩
    · simp [h]
    · simp only [if_neg h]
      norm_num
    · intro _
      simp [h]
    · intro hc
      omega

/-- Claim C2: `_process_test_event` assigns every test event to the
collection selected by the spec's categorization rule — in order, a
case-insensitive substring match on the name: "unit" → Unit, else
"integration" → Integration, else "performance" → Performance, else the
Unit default bucket — and `categorizeSpec` is a plain function of the name
string alone, so the assigned category is pure and deterministic: it does
not depend on the collector state, on the other event fields, or on any
ordering. -/
theorem c2_categorization_refines_spec (e : RawEvent) (s : GenState) :
    processTestEvent e s =
      addToCategory (categorizeSpec (mkTestResult e).name) (mkTestResult e) s := by
  simp only [processTestEvent, categorizeSpec, addToCategory]
  split_ifs <;> rfl

theorem processTestEvent_platform (e : RawEvent) (s : GenState) :
    (processTestEvent e s).platform_tests = s.platform_tests := by
  simp only [processTestEvent]
  split_ifs <;> rfl

theorem processLines_platform (ls : List EventLine) (s : GenState) :
    (processLines ls s).platform_tests = s.platform_tests := by
  induction ls generalizing s with
  | nil => rfl
  | cons l ls ih =>
    cases l with
    | none => exact ih s
    | some e =>
      rw [processLines, ih]
      by_cases h : e.type = some "test"
      · rw [if_pos h, processTestEvent_platform]
      · rw [if_neg h]

theorem collectCargoTestResults_platform (fs : List EventFile) (s : GenState) :
    (collectCargoTestResults fs s).platform_tests = s.platform_tests := by
  induction fs generalizing s with
  | nil => rfl
  | cons f fs ih =>
    cases f with
    | none => exact ih s
    | some lines => rw [collectCargoTestResults, ih, processLines_platform]

theorem collectBenchmarkResults_platform (ds : List BenchDir) (s s' : GenState)
    (h : collectBenchmarkResults ds s = Except.ok s') :
    s'.platform_tests = s.platform_tests := by
  induction ds generalizing s with
  | nil =>
    rw [collectBenchmarkResults] at h
    injection h with h
    rw [h]
  | cons d ds ih =>
    cases hd : d.estimates with
    | none =>
      simp only [collectBenchmarkResults, hd] at h
      exact ih s h
    | some est =>
      cases est with
      | error e =>
        simp only [collectBenchmarkResults, hd] at h
        exact Except.noConfusion h
      | ok data =>
        simp only [collectBenchmarkResults, hd] at h
        exact (ih _ h).trans rfl

theorem collectCoverageResults_ok (tarp : TarpaulinFile) (s s' : GenState)
    (h : collectCoverageResults tarp s = Except.ok s') :
    s' = { s with coverage_data :=
      { line_coverage := 0, branch_coverage := 0, function_coverage := 0 } } := by
  cases tarp with
  | none =>
    rw [collectCoverageResults] at h
    injection h with h
    rw [h]
  | some est =>
    cases est with
    | error e => simp [collectCoverageResults] at h
    | ok d =>
      rw [collectCoverageResults] at h
      injection h with h
      rw [h]

theorem appendIssues_eq (es : List ErrorElem) (s : GenState) :
    appendIssues es s = { s with memory_tests := s.memory_tests ++ es.map mkIssue } := by
  induction es generalizing s with
  | nil => simp [appendIssues]
  | cons e es ih =>
    rw [appendIssues, ih]
    simp

theorem collectMemoryTestResults_eq (fs : List MemFile) (s : GenState) :
    collectMemoryTestResults fs s =
      { s with memory_tests := s.memory_tests ++ (fs.map specIssuesOfFile).flatten } := by
  induction fs generalizing s with
  | nil => simp [collectMemoryTestResults]
  | cons f fs ih =>
    cases f with
    | error e =>
      rw [collectMemoryTestResults, ih]
      simp [specIssuesOfFile]
    | ok errs =>
      rw [collectMemoryTestResults, ih, appendIssues_eq]
      simp [specIssuesOfFile, mkIssue]

theorem processLines_filter (ls : List EventLine) (s : GenState) :
    processLines (ls.filter (fun l => l.isSome)) s = processLines ls s := by
  induction ls generalizing s with
  | nil => rfl
  | cons l ls ih =>
    cases l with
    | none =>
      have h1 : (none :: ls).filter (fun l : EventLine => l.isSome) =
          ls.filter (fun l => l.isSome) := by simp
      rw [h1, ih]
      rfl
    | some e =>
      have h1 : (some e :: ls).filter (fun l : EventLine => l.isSome) =
          some e :: ls.filter (fun l => l.isSome) := by simp
      rw [h1]
      simp only [processLines]
      exact ih _

theorem collectCargoTestResults_clean (fs : List EventFile) (s : GenState) :
    collectCargoTestResults (cleanEventFiles fs) s = collectCargoTestResults fs s := by
  induction fs generalizing s with
  | nil => rfl
  | cons f fs ih =>
    cases f with
    | none =>
      have h1 : cleanEventFiles (none :: fs) = cleanEventFiles fs := by
        simp [cleanEventFiles]
      rw [h1, ih]
      rfl
    | some lines =>
      have h1 : cleanEventFiles (some lines :: fs) =
          some (lines.filter (fun l => l.isSome)) :: cleanEventFiles fs := by
        simp [cleanEventFiles]
      rw [h1]
      simp only [collectCargoTestResults]
      rw [processLines_filter]
      exact ih _

theorem collectMemoryTestResults_clean (fs : List MemFile) (s : GenState) :
    collectMemoryTestResults (cleanMemoryFiles fs) s = collectMemoryTestResults fs s := by
  induction fs generalizing s with
  | nil => rfl
  | cons f fs ih =>
    cases f with
    | error e =>
      have h1 : cleanMemoryFiles (Except.error e :: fs) = cleanMemoryFiles fs := by
        simp [cleanMemoryFiles]
      rw [h1, ih]
      rfl
    | ok errs =>
      have h1 : cleanMemoryFiles (Except.ok errs :: fs) =
          Except.ok errs :: cleanMemoryFiles fs := by
        simp [cleanMemoryFiles]
      rw [h1]
      simp only [collectMemoryTestResults]
      exact ih _

theorem collectBenchmarkResults_ok_of_all (ds : List BenchDir) (s : GenState)
    (h : ds.all benchFileOk = true) :
    ∃ s', collectBenchmarkResults ds s = Except.ok s' := by
  induction ds generalizing s with
  | nil => exact ⟨s, rfl⟩
  | cons d ds ih =>
    rw [List.all_cons, Bool.and_eq_true] at h
    obtain ⟨hd, hds⟩ := h
    cases he : d.estimates with
    | none =>
      simp only [collectBenchmarkResults, he]
      exact ih _ hds
    | some est =>
      cases est with
      | error e =>
        exfalso
        rw [benchFileOk, he] at hd
        exact Bool.noConfusion hd
      | ok data =>
        simp only [collectBenchmarkResults, he]
        exact ih _ hds

theorem collectCoverageResults_ok_of (tarp : TarpaulinFile) (s : GenState)
    (h : tarpOk tarp = true) :
    collectCoverageResults tarp s = Except.ok { s with coverage_data :=
      { line_coverage := 0, branch_coverage := 0, function_coverage := 0 } } := by
  cases tarp with
  | none => rfl
  | some est =>
    cases est with
    | error e => rw [tarpOk] at h; exact Bool.noConfusion h
    | ok d => rfl

theorem collectTestResults_decomp (inp : Input) (s : GenState)
    (h : collectTestResults inp = Except.ok s) :
    ∃ s2, collectBenchmarkResults inp.bench_dirs
        (collectCargoTestResults inp.event_files initState) = Except.ok s2 ∧
      tarpOk inp.tarpaulin = true ∧
      s = collectMemoryTestResults inp.memory_files
          { s2 with coverage_data :=
            { line_coverage := 0, branch_coverage := 0, function_coverage := 0 } } := by
  simp only [collectTestResults] at h
  cases hb : collectBenchmarkResults inp.bench_dirs
      (collectCargoTestResults inp.event_files initState) with
  | error e =>
    simp [hb] at h
  | ok s2 =>
    simp only [hb] at h
    cases hc : collectCoverageResults inp.tarpaulin s2 with
    | error e =>
      simp [hc] at h
    | ok s3 =>
      simp only [hc, Except.ok.injEq] at h
      have h3 := collectCoverageResults_ok inp.tarpaulin s2 s3 hc
      refine ⟨s2, rfl, ?_, ?_⟩
      · cases ht : inp.tarpaulin with
        | none => simp [tarpOk, ht]
        | some est =>
          cases est with
          | error e =>
            rw [ht] at hc
            simp only [collectCoverageResults] at hc
            exact Except.noConfusion hc
          | ok d => simp [tarpOk, ht]
      · rw [← h, h3]

/-- Claim C1 (counterexample): on a model whose platform collection holds
one record, the HTML summary's total (which adds `len(platform_tests)`)
differs from the JSON summary's total (which does not), so the three
artifacts do not report identical totals for every model. -/
theorem c1_total_counterexample :
    (generateSummarySection sPlatformOne).total_tests ≠
      (generateJsonReport sPlatformOne).summary.total_tests := by
  decide

/-- Claim C1 (amended): the three artifacts always agree on passed, failed,
and the coverage percentages (the Markdown summary displays the line
percentage); they agree on total whenever the platform collection is empty,
the HTML total alone adding a `len(platform_tests)` term. -/
theorem c1_cross_format_consistency (s : GenState) :
    (generateSummarySection s).passed_tests = (generateJsonReport s).summary.passed ∧
    (generateMarkdownReport s).passed_tests = (generateJsonReport s).summary.passed ∧
    (generateSummarySection s).failed_tests = (generateJsonReport s).summary.failed ∧
    (generateMarkdownReport s).failed_tests = (generateJsonReport s).summary.failed ∧
    generateCoverageSection s = (generateJsonReport s).summary.coverage ∧
    (generateSummarySection s).line_coverage =
      (generateJsonReport s).summary.coverage.line_coverage ∧
    (generateMarkdownReport s).line_coverage =
      (generateJsonReport s).summary.coverage.line_coverage ∧
    (generateMarkdownReport s).total_tests = (generateJsonReport s).summary.total_tests ∧
    (s.platform_tests = [] →
      (generateSummarySection s).total_tests = (generateJsonReport s).summary.total_tests) := by
  refine ⟨rfl, rfl, rfl, rfl, rfl, rfl, rfl, rfl, ?_⟩
  intro hp
  show s.unit_tests.length + s.integration_tests.length + s.platform_tests.length =
    s.unit_tests.length + s.integration_tests.length
  rw [hp]
  simp

/-- Claim C1 (witness): the consistency equalities instantiated at the
empty collected state, where the platform hypothesis holds. -/
theorem c1_witness :
    (generateSummarySection initState).passed_tests = (generateJsonReport initState).summary.passed ∧
    (generateMarkdownReport initState).passed_tests = (generateJsonReport initState).summary.passed ∧
    (generateSummarySection initState).failed_tests = (generateJsonReport initState).summary.failed ∧
    (generateMarkdownReport initState).failed_tests = (generateJsonReport initState).summary.failed ∧
    generateCoverageSection initState = (generateJsonReport initState).summary.coverage ∧
    (generateSummarySection initState).line_coverage =
      (generateJsonReport initState).summary.coverage.line_coverage ∧
    (generateMarkdownReport initState).line_coverage =
      (generateJsonReport initState).summary.coverage.line_coverage ∧
    (generateMarkdownReport initState).total_tests = (generateJsonReport initState).summary.total_tests ∧
    (initState.platform_tests = [] →
      (generateSummarySection initState).total_tests =
        (generateJsonReport initState).summary.total_tests) :=
  c1_cross_format_consistency initState

/-- Claim C3: the pass rate of the HTML summary and of the Markdown summary
is in [0, 100], equals `passed / total * 100` when `total > 0`, and equals 0
when `total = 0`; the `total > 0` guard in both renderers means the division
is only ever performed with a nonzero denominator. -/
theorem c3_pass_rate_safe (s : GenState) :
    passRateOk (generateSummarySection s).pass_rate
      (generateSummarySection s).passed_tests (generateSummarySection s).total_tests ∧
    passRateOk (generateMarkdownReport s).pass_rate
      (generateMarkdownReport s).passed_tests (generateMarkdownReport s).total_tests := by
  constructor
  · have hle : (s.unit_tests ++ s.integration_tests).countP (fun t => t.event == "ok") ≤
        s.unit_tests.length + s.integration_tests.length + s.platform_tests.length := by
      have h1 := List.countP_le_length
        (p := fun t : TestResult => t.event == "ok")
        (l := s.unit_tests ++ s.integration_tests)
      rw [List.length_append] at h1
      omega
    exact passRate_formula_ok _ _ hle
  · have hle : (s.unit_tests ++ s.integration_tests).countP (fun t => t.event == "ok") ≤
        s.unit_tests.length + s.integration_tests.length := by
      have h1 := List.countP_le_length
        (p := fun t : TestResult => t.event == "ok")
        (l := s.unit_tests ++ s.integration_tests)
      rw [List.length_append] at h1
      exact h1
    exact passRate_formula_ok _ _ hle

/-- Claim C3 (witness): the pass-rate contract instantiated at a collected
state with one passing and one failing unit test. -/
theorem c3_witness :
    passRateOk (generateSummarySection sTwoUnit).pass_rate
      (generateSummarySection sTwoUnit).passed_tests (generateSummarySection sTwoUnit).total_tests ∧
    passRateOk (generateMarkdownReport sTwoUnit).pass_rate
      (generateMarkdownReport sTwoUnit).passed_tests (generateMarkdownReport sTwoUnit).total_tests :=
  c3_pass_rate_safe sTwoUnit

/-- Claim C4: in each of the three artifacts, passed + failed does not
exceed the reported total: passed counts `"ok"` events and failed counts
`"failed"` events over unit ∪ integration, a record cannot match both, and
records with any other event string (ignored, unknown, ...) are counted in
neither sum. -/
theorem c4_passed_failed_le_total (s : GenState) :
    (generateSummarySection s).passed_tests + (generateSummarySection s).failed_tests ≤
      (generateSummarySection s).total_tests ∧
    (generateJsonReport s).summary.passed + (generateJsonReport s).summary.failed ≤
      (generateJsonReport s).summary.total_tests ∧
    (generateMarkdownReport s).passed_tests + (generateMarkdownReport s).failed_tests ≤
      (generateMarkdownReport s).total_tests := by
  have hdisj : ∀ t : TestResult, (t.event == "ok") = true → (t.event == "failed") = false := by
    intro t ht
    have he : t.event = "ok" := eq_of_beq ht
    rw [he]
    rfl
  have key := countP_disjoint_le_length (fun t => t.event == "ok")
    (fun t => t.event == "failed") (s.unit_tests ++ s.integration_tests) hdisj
  rw [List.length_append] at key
  refine ⟨?_, ?_, ?_⟩
  · show (s.unit_tests ++ s.integration_tests).countP (fun t => t.event == "ok") +
      (s.unit_tests ++ s.integration_tests).countP (fun t => t.event == "failed") ≤
        s.unit_tests.length + s.integration_tests.length + s.platform_tests.length
    omega
  · show (s.unit_tests ++ s.integration_tests).countP (fun t => t.event == "ok") +
      (s.unit_tests ++ s.integration_tests).countP (fun t => t.event == "failed") ≤
        s.unit_tests.length + s.integration_tests.length
    omega
  · show (s.unit_tests ++ s.integration_tests).countP (fun t => t.event == "ok") +
      (s.unit_tests ++ s.integration_tests).countP (fun t => t.event == "failed") ≤
        s.unit_tests.length + s.integration_tests.length
    omega

/-- Claim C5 (counterexample): with one malformed benchmark estimates file
and a well-formed valgrind report in the inputs, `collect_test_results`
aborts with the benchmark parse error — `_collect_benchmark_results` has no
exception handler — so the memory category is never collected and
contributes nothing, contrary to the claim that a malformed file in one
category leaves collection of the other categories intact. -/
theorem c5_counterexample :
    collectTestResults inpBadBench = Except.error "bad json" ∧
    collectSucceeded inpBadBench = false := by
  decide

/-- Claim C5 (amended): the event parser (per file and per line) and the
memory parser (per file) fail soft — removing every malformed event file,
undecodable event line and unparsable valgrind report leaves the collected
result unchanged — but the benchmark and coverage collectors have no
handler, so collection completes only under the hypothesis that every
present benchmark estimates file and the tarpaulin file parse. -/
theorem c5_fail_soft_partial (inp : Input)
    (hb : inp.bench_dirs.all benchFileOk = true)
    (hc : tarpOk inp.tarpaulin = true) :
    collectSucceeded inp = true ∧
    collectTestResults inp =
      collectTestResults
        { inp with
          event_files := cleanEventFiles inp.event_files
          memory_files := cleanMemoryFiles inp.memory_files } := by
  obtain ⟨s2, hs2⟩ := collectBenchmarkResults_ok_of_all inp.bench_dirs
    (collectCargoTestResults inp.event_files initState) hb
  have hcov := collectCoverageResults_ok_of inp.tarpaulin s2 hc
  have hcollect : collectTestResults inp =
      Except.ok (collectMemoryTestResults inp.memory_files
        { s2 with coverage_data :=
          { line_coverage := 0, branch_coverage := 0, function_coverage := 0 } }) := by
    simp only [collectTestResults, hs2, hcov]
  constructor
  · rw [collectSucceeded, hcollect]
  · have hs2' : collectBenchmarkResults inp.bench_dirs
        (collectCargoTestResults (cleanEventFiles inp.event_files) initState) =
          Except.ok s2 := by
      rw [collectCargoTestResults_clean]
      exact hs2
    rw [hcollect]
    simp only [collectTestResults, hs2', hcov]
    rw [collectMemoryTestResults_clean]

/-- Claim C5 (witness): the amended fail-soft property at inputs mixing an
unreadable event file, an undecodable event line and an unparsable valgrind
report with well-formed benchmark and coverage artifacts. -/
theorem c5_witness :
    collectSucceeded inpMixed = true ∧
    collectTestResults inpMixed =
      collectTestResults
        { inpMixed with
          event_files := cleanEventFiles inpMixed.event_files
          memory_files := cleanMemoryFiles inpMixed.memory_files } :=
  c5_fail_soft_partial inpMixed (by decide) (by decide)

/-- Claim C6 (counterexample): an `<error>` element without a description
child yields a record whose description field is `"Unknown error"`, not the
claimed `"Unknown issue"` (the renderers use `"Unknown issue"` only as a
display default for a key the parser in fact always sets). -/
theorem c6_counterexample :
    (collectMemoryTestResults memNoWhat initState).memory_tests =
      [{ kind := "Leak_DefinitelyLost", what := "Unknown error" }] ∧
    ({ kind := "Leak_DefinitelyLost", what := "Unknown error" } : MemoryIssue) ≠
      { kind := "Leak_DefinitelyLost", what := "Unknown issue" } := by
  decide

/-- Claim C6 (amended): parsing appends exactly one MemoryIssue per
`<error>` element of each parsable report, with kind defaulting to
"Unknown" when the `<kind>` child is absent and description defaulting to
"Unknown error" when the description child is absent; in particular a
report with two `<error>` elements, one missing `<kind>`, yields two
records, the second with kind "Unknown". -/
theorem c6_memory_issue_per_error (fs : List MemFile) (s : GenState) :
    (collectMemoryTestResults fs s).memory_tests =
      s.memory_tests ++ (fs.map specIssuesOfFile).flatten := by
  rw [collectMemoryTestResults_eq]

/-- Claim C7 (counterexample): a model with eleven integration tests is
truncated to ten rows in the Markdown report with no "... and K more"
marker after the integration section — the source appends that marker only
after the unit section — refuting "always appends an explicit marker". -/
theorem c7_counterexample :
    sElevenIntegration.integration_tests.length = 11 ∧
    (generateMarkdownReport sElevenIntegration).integration_rows.length = 10 ∧
    (generateMarkdownReport sElevenIntegration).integration_more = none := by
  decide

/-- Claim C7 (amended): the Markdown renderer truncates the unit,
integration and performance sections to their first 10 entries; only the
unit section is followed by an explicit "... and K more tests" marker
(with K the number omitted), the other truncated sections get no marker;
the JSON renderer never truncates: its tests and memory sections embed
every record of every collection. -/
theorem c7_truncation_and_losslessness (s : GenState) :
    (generateMarkdownReport s).unit_rows = s.unit_tests.take 10 ∧
    (generateMarkdownReport s).unit_more =
      (if s.unit_tests.length > 10 then some (s.unit_tests.length - 10) else none) ∧
    (generateMarkdownReport s).integration_rows = s.integration_tests.take 10 ∧
    (generateMarkdownReport s).integration_more = none ∧
    (generateMarkdownReport s).perf_rows = s.performance_tests.take 10 ∧
    (generateJsonReport s).tests_unit = s.unit_tests ∧
    (generateJsonReport s).tests_integration = s.integration_tests ∧
    (generateJsonReport s).tests_performance = s.performance_tests ∧
    (generateJsonReport s).tests_platform = s.platform_tests ∧
    (generateJsonReport s).memory = s.memory_tests :=
  ⟨rfl, rfl, rfl, rfl, rfl, rfl, rfl, rfl, rfl, rfl⟩

/-- Claim C8 (counterexample): when only the HTML write fails, the run
aborts at once — the JSON and Markdown writes are never attempted and the
process signal is failure — contrary to the claim that the other renderers
are still attempted and that one failure leaves the overall signal
successful. -/
theorem c8_counterexample :
    reportsSucceeded { html_ok := false, json_ok := true, md_ok := true } = false ∧
    attemptedWrites { html_ok := false, json_ok := true, md_ok := true } = [Fmt.html] := by
  decide

/-- Claim C8 (amended): `main` attempts the three writes in the order HTML,
JSON, Markdown with no exception handling between them, so the first
failing write aborts the run, later renderers are not attempted, and the
process signal is success exactly when all three writes succeed. -/
theorem c8_first_failure_aborts (env : WriteEnv) :
    reportsSucceeded env = (env.html_ok && env.json_ok && env.md_ok) ∧
    attemptedWrites env =
      Fmt.html ::
        (if env.html_ok then Fmt.json :: (if env.json_ok then [Fmt.md] else []) else []) := by
  obtain ⟨h, j, m⟩ := env
  cases h <;> cases j <;> cases m <;> exact ⟨rfl, rfl⟩

/-- Claim C9: whenever `collect_test_results` completes — including runs
where a well-formed tarpaulin report with nonzero percentages is present —
all three coverage percentages in the collected state are exactly 0, and so
are the values every renderer displays: `_collect_coverage_results` parses
the file but never assigns anything from it. -/
theorem c9_coverage_always_zero (inp : Input) (s : GenState)
    (h : collectTestResults inp = Except.ok s) :
    s.coverage_data =
      { line_coverage := 0, branch_coverage := 0, function_coverage := 0 } ∧
    generateCoverageSection s =
      { line_coverage := 0, branch_coverage := 0, function_coverage := 0 } ∧
    (generateJsonReport s).summary.coverage =
      { line_coverage := 0, branch_coverage := 0, function_coverage := 0 } ∧
    (generateSummarySection s).line_coverage = 0 ∧
    (generateMarkdownReport s).line_coverage = 0 := by
  obtain ⟨s2, hb, ht, hs⟩ := collectTestResults_decomp inp s h
  have hcov : s.coverage_data =
      { line_coverage := 0, branch_coverage := 0, function_coverage := 0 } := by
    rw [hs, collectMemoryTestResults_eq]
  exact ⟨hcov, hcov, hcov, congrArg CoverageData.line_coverage hcov,
    congrArg CoverageData.line_coverage hcov⟩

/-- Claim C9 (witness): the coverage-constancy property at inputs holding a
well-formed tarpaulin report with nonzero percentages. -/
theorem c9_witness :
    initState.coverage_data =
      { line_coverage := 0, branch_coverage := 0, function_coverage := 0 } ∧
    generateCoverageSection initState =
      { line_coverage := 0, branch_coverage := 0, function_coverage := 0 } ∧
    (generateJsonReport initState).summary.coverage =
      { line_coverage := 0, branch_coverage := 0, function_coverage := 0 } ∧
    (generateSummarySection initState).line_coverage = 0 ∧
    (generateMarkdownReport initState).line_coverage = 0 :=
  c9_coverage_always_zero inpCoverageOnly initState (by decide)

/-- Claim C10: whenever `collect_test_results` completes, the platform
collection is empty — no collector appends to `self.platform_tests` — so
the platform tab renders the explicit empty state, the JSON platform list
is empty, and the HTML total equals the count of unit plus integration
records. -/
theorem c10_platform_always_empty (inp : Input) (s : GenState)
    (h : collectTestResults inp = Except.ok s) :
    s.platform_tests = [] ∧
    generateTestTable s.platform_tests = TestTable.noTests ∧
    (generateJsonReport s).tests_platform = [] ∧
    (generateSummarySection s).total_tests =
      s.unit_tests.length + s.integration_tests.length := by
  obtain ⟨s2, hb, ht, hs⟩ := collectTestResults_decomp inp s h
  have hplat : s.platform_tests = [] := by
    rw [hs, collectMemoryTestResults_eq]
    show s2.platform_tests = []
    rw [collectBenchmarkResults_platform _ _ _ hb, collectCargoTestResults_platform]
    rfl
  refine ⟨hplat, ?_, hplat, ?_⟩
  · rw [hplat]
    rfl
  · show s.unit_tests.length + s.integration_tests.length + s.platform_tests.length =
      s.unit_tests.length + s.integration_tests.length
    rw [hplat]
    simp

/-- Claim C10 (witness): the empty-platform property at inputs holding one
passing unit-test event. -/
theorem c10_witness :
    sOneUnit.platform_tests = [] ∧
    generateTestTable sOneUnit.platform_tests = TestTable.noTests ∧
    (generateJsonReport sOneUnit).tests_platform = [] ∧
    (generateSummarySection sOneUnit).total_tests =
      sOneUnit.unit_tests.length + sOneUnit.integration_tests.length :=
  c10_platform_always_empty inpOneUnit sOneUnit (by decide)
